import Mathlib

/-!
# Verification of the tile/style cache-aside proxy

Shallow embedding of the Next.js route handlers
`src/frontend/src/app/api/proxy/tiles/[...path]/route.ts` (tile proxy) and the
style proxy route (`GET` over `params.style`), together with the helper
functions `getContentType`, `validateContentType` and `validateJsonFormat`.

Modelling conventions:
* A byte is `Fin 256`; a Node `Buffer` is a `List Byte`.
* `Buffer.prototype.slice(i, j)` is `bufSlice` (take then drop; clamping for free).
* `Buffer.prototype.toString("hex")` is `bufHex` (lower-case hex digits).
* `Buffer.prototype.toString("ascii")` is `bufAscii`.  Per the Node.js Buffer
  documentation, decoding with the `ascii` encoding unsets the highest bit of
  each byte before decoding as latin1, so each byte is reduced mod 128.
* JavaScript `Array.prototype.join("/")` is `joinSlash`;
  `String.prototype.endsWith` / `startsWith` are `strEndsWith` / `strStartsWith`.
* `JSON.parse` success is modelled by `validJson`, a fuel-driven recursive
  descent recogniser of the JSON grammar (ECMA-404, as used by `JSON.parse`).
* The Redis client is modelled as an association list from key strings to
  values, plus two fault flags (`getFails`, `setFails`) describing whether the
  `try`-guarded `get` and `set` calls throw on this request.  The upstream
  `fetch` is modelled as an `Except Unit` value: `.error` is a transport-level
  rejection of the promise, `.ok` carries the HTTP response.
-/

abbrev Byte := Fin 256

/-- Node `Buffer.prototype.slice(i, j)` on a byte list (end-exclusive, clamping). -/
def bufSlice (data : List Byte) (i j : Nat) : List Byte :=
  (data.take j).drop i

/-- Lower-case hex digit for a value below 16. -/
def hexDigitF (n : Fin 16) : Char :=
  Char.ofNat (if n.val < 10 then 48 + n.val else 87 + n.val)

/-- High nibble of a byte. -/
def byteHi (b : Byte) : Fin 16 :=
  ⟨b.val / 16, by omega⟩

/-- Low nibble of a byte. -/
def byteLo (b : Byte) : Fin 16 :=
  ⟨b.val % 16, by omega⟩

/-- Character list of `Buffer.prototype.toString("hex")`. -/
def bufHexChars : List Byte → List Char
  | [] => []
  | b :: rest => hexDigitF (byteHi b) :: hexDigitF (byteLo b) :: bufHexChars rest

/-- `Buffer.prototype.toString("hex")`. -/
def bufHex (data : List Byte) : String :=
  String.mk (bufHexChars data)

/-- The character a byte decodes to under Node's `ascii` encoding: the highest
bit is unset (reduce mod 128) before decoding as latin1. -/
def asciiChar (b : Byte) : Char :=
  Char.ofNat (b.val % 128)

/-- `Buffer.prototype.toString("ascii")` (Node unsets the high bit of each
byte before decoding). -/
def bufAscii (data : List Byte) : String :=
  String.mk (data.map asciiChar)

/-- JavaScript `Array.prototype.join("/")`. -/
def joinSlash : List String → String
  | [] => ""
  | [s] => s
  | s :: rest => s ++ "/" ++ joinSlash rest

/-- JavaScript `String.prototype.endsWith`. -/
def strEndsWith (s suffix : String) : Bool :=
  suffix.data.isSuffixOf s.data

/-- JavaScript `String.prototype.startsWith`. -/
def strStartsWith (s pre : String) : Bool :=
  pre.data.isPrefixOf s.data

/-- Occurrence of `needle` as a contiguous run inside `hay` (char lists). -/
def infixOfB (needle : List Char) : List Char → Bool
  | [] => needle.isEmpty
  | c :: rest => needle.isPrefixOf (c :: rest) || infixOfB needle rest

/-- `needle` occurs as a contiguous substring of `hay`. -/
def strMentions (hay needle : String) : Bool :=
  infixOfB needle.data hay.data

/-- Embedding of `getContentType` from the tile route: map the path suffix to
the expected content type. -/
def getContentType (path : String) : String :=
  if strEndsWith path ".png" then "image/png"
  else if strEndsWith path ".jpg" || strEndsWith path ".jpeg" then "image/jpeg"
  else if strEndsWith path ".webp" then "image/webp"
  else if strEndsWith path ".pbf" then "application/x-protobuf"
  else if strEndsWith path ".json" then "application/json"
  else "application/octet-stream"

/-- Embedding of `validateContentType` from the tile route: magic-byte checks
against the expected content type.  The PNG/JPEG/WEBP/ZIP comparisons go
through the buffer's hex rendering exactly as in the source; the WEBP tail and
the JSON first-byte checks go through Node `ascii` decoding. -/
def validateContentType (data : List Byte) (expectedContentType : String) : Bool :=
  if expectedContentType = "image/png" ∧ bufHex (bufSlice data 0 8) = "89504e470d0a1a0a" then
    true
  else if expectedContentType = "image/jpeg" ∧ bufHex (bufSlice data 0 2) = "ffd8" then
    true
  else if expectedContentType = "image/webp" ∧ bufHex (bufSlice data 0 4) = "52494646"
      ∧ bufAscii (bufSlice data 8 12) = "WEBP" then
    true
  else if expectedContentType = "application/x-protobuf"
      ∧ bufHex (bufSlice data 0 4) = "504b0304" then
    true
  else if expectedContentType = "application/json" ∧ bufAscii (bufSlice data 0 1) = "\x7b" then
    true
  else
    false

/-- PNG signature bytes. -/
def pngSig : List Byte := [0x89, 0x50, 0x4e, 0x47, 0x0d, 0x0a, 0x1a, 0x0a]

/-- JPEG signature bytes. -/
def jpegSig : List Byte := [0xff, 0xd8]

/-- ASCII bytes of RIFF. -/
def riffSig : List Byte := [0x52, 0x49, 0x46, 0x46]

/-- ZIP local-file-header signature bytes (what the code checks for pbf). -/
def zipSig : List Byte := [0x50, 0x4b, 0x03, 0x04]

/-- The 7-bit values of ASCII `WEBP` (what the `ascii`-decoded comparison
actually pins down). -/
def webpMask : List (Fin 128) := [87, 69, 66, 80]

/-- The 7-bit value of the opening-brace character. -/
def jsonMask : List (Fin 128) := [123]

/-! ## A model of `JSON.parse` success

`JSON.parse(text)` succeeds iff `text` is a JSON text per the ECMA-404 grammar
(value with optional surrounding insignificant whitespace).  The recogniser
below is a recursive-descent scanner over the character list; `some rest`
means a production was consumed leaving `rest`.  Recursion through arrays and
objects is driven by a fuel counter that is comfortably larger than the input
length (every fuel step of nesting or iteration consumes input). -/

/-- JSON insignificant whitespace: space, tab, line feed, carriage return. -/
def jsonWsChar (c : Char) : Bool :=
  c = Char.ofNat 32 || c = Char.ofNat 9 || c = Char.ofNat 10 || c = Char.ofNat 13

/-- Drop leading JSON whitespace. -/
def skipWs : List Char → List Char
  | [] => []
  | c :: rest => if jsonWsChar c then skipWs rest else c :: rest

/-- Hex digit as accepted inside a JSON `\u` escape. -/
def isHexDig (c : Char) : Bool :=
  c.isDigit || (Char.ofNat 97 ≤ c && c ≤ Char.ofNat 102)
    || (Char.ofNat 65 ≤ c && c ≤ Char.ofNat 70)

/-- Consume the remainder of a JSON string literal (the opening quote has
already been consumed): unescaped chars must be `0x20` or above, escapes are
the eight single-char escapes and `\uXXXX`. -/
def parseStringRest : List Char → Option (List Char)
  | [] => none
  | c :: rest =>
    if c = Char.ofNat 34 then some rest
    else if c = Char.ofNat 92 then
      match rest with
      | [] => none
      | e :: rest2 =>
        if e = Char.ofNat 34 || e = Char.ofNat 92 || e = Char.ofNat 47 || e = 'b'
            || e = 'f' || e = 'n' || e = 'r' || e = 't' then
          parseStringRest rest2
        else if e = 'u' then
          match rest2 with
          | h1 :: h2 :: h3 :: h4 :: rest3 =>
            if isHexDig h1 && isHexDig h2 && isHexDig h3 && isHexDig h4 then
              parseStringRest rest3
            else none
          | _ => none
        else none
    else if 32 ≤ c.toNat then parseStringRest rest
    else none

/-- Drop a (possibly empty) run of decimal digits. -/
def skipDigits : List Char → List Char
  | [] => []
  | c :: rest => if c.isDigit then skipDigits rest else c :: rest

/-- Consume one or more decimal digits. -/
def parseDigits1 : List Char → Option (List Char)
  | [] => none
  | c :: rest => if c.isDigit then some (skipDigits rest) else none

/-- Consume the integer part of a JSON number: `0`, or a nonzero digit
followed by digits (leading zeros are not part of the production). -/
def parseIntPart : List Char → Option (List Char)
  | [] => none
  | c :: rest =>
    if c = '0' then some rest
    else if c.isDigit then some (skipDigits rest)
    else none

/-- Consume an optional fraction part `.digits`. -/
def parseFracOpt : List Char → Option (List Char)
  | [] => some []
  | c :: rest => if c = '.' then parseDigits1 rest else some (c :: rest)

/-- Consume an optional exponent part `e|E [+|-] digits`. -/
def parseExpOpt : List Char → Option (List Char)
  | [] => some []
  | c :: rest =>
    if c = 'e' || c = 'E' then
      match rest with
      | [] => none
      | s :: rest2 =>
        if s = '+' || s = '-' then parseDigits1 rest2 else parseDigits1 (s :: rest2)
    else some (c :: rest)

/-- Consume a JSON number after the optional leading minus sign. -/
def parseNumber (cs : List Char) : Option (List Char) :=
  (parseIntPart cs).bind fun cs1 => (parseFracOpt cs1).bind parseExpOpt

/-- Consume an exact run of literal characters. -/
def expectChars : List Char → List Char → Option (List Char)
  | [], cs => some cs
  | _ :: _, [] => none
  | e :: es, c :: cs => if c = e then expectChars es cs else none

/-- Grammar positions for the JSON recogniser: a value; the inside of an
array right after `[` or after a comma-separated element; the inside of an
object right after the opening brace; a member after its key string; the
inside of an object after a complete member. -/
inductive JsonMode
  | value
  | arrayBody
  | arrayTail
  | objectBody
  | memberValue
  | objectTail
deriving DecidableEq

/-- Fuel-driven JSON recogniser, one step per grammar position. -/
def jsonRun : Nat → JsonMode → List Char → Option (List Char)
  | 0, _, _ => none
  | Nat.succ fuel, mode, cs =>
    match mode with
    | JsonMode.value =>
      match skipWs cs with
      | [] => none
      | c :: rest =>
        if c = 'n' then expectChars ['u', 'l', 'l'] rest
        else if c = 't' then expectChars ['r', 'u', 'e'] rest
        else if c = 'f' then expectChars ['a', 'l', 's', 'e'] rest
        else if c = Char.ofNat 34 then parseStringRest rest
        else if c = Char.ofNat 91 then jsonRun fuel JsonMode.arrayBody rest
        else if c = Char.ofNat 123 then jsonRun fuel JsonMode.objectBody rest
        else if c = '-' then parseNumber rest
        else if c.isDigit then parseNumber (c :: rest)
        else none
    | JsonMode.arrayBody =>
      match skipWs cs with
      | [] => none
      | c :: rest =>
        if c = Char.ofNat 93 then some rest
        else
          (jsonRun fuel JsonMode.value (c :: rest)).bind fun r =>
            jsonRun fuel JsonMode.arrayTail r
    | JsonMode.arrayTail =>
      match skipWs cs with
      | [] => none
      | c :: rest =>
        if c = Char.ofNat 93 then some rest
        else if c = ',' then
          (jsonRun fuel JsonMode.value rest).bind fun r =>
            jsonRun fuel JsonMode.arrayTail r
        else none
    | JsonMode.objectBody =>
      match skipWs cs with
      | [] => none
      | c :: rest =>
        if c = Char.ofNat 125 then some rest
        else if c = Char.ofNat 34 then
          (parseStringRest rest).bind fun r => jsonRun fuel JsonMode.memberValue r
        else none
    | JsonMode.memberValue =>
      match skipWs cs with
      | [] => none
      | c :: rest =>
        if c = ':' then
          (jsonRun fuel JsonMode.value rest).bind fun r =>
            jsonRun fuel JsonMode.objectTail r
        else none
    | JsonMode.objectTail =>
      match skipWs cs with
      | [] => none
      | c :: rest =>
        if c = Char.ofNat 125 then some rest
        else if c = ',' then
          match skipWs rest with
          | [] => none
          | c2 :: rest2 =>
            if c2 = Char.ofNat 34 then
              (parseStringRest rest2).bind fun r => jsonRun fuel JsonMode.memberValue r
            else none
        else none

/-- `JSON.parse(s)` succeeds: one JSON value, then only trailing whitespace. -/
def validJson (s : String) : Bool :=
  match jsonRun (2 * s.data.length + 4) JsonMode.value s.data with
  | some rest => (skipWs rest).isEmpty
  | none => false

/-- Embedding of `validateJsonFormat` from the style route: `JSON.parse` in a
`try` block, returning whether it succeeded. -/
def validateJsonFormat (data : String) : Bool :=
  validJson data

/-! ## The route handlers

`tileGET` embeds the `GET` handler of
`src/frontend/src/app/api/proxy/tiles/[...path]/route.ts`; `styleGET` embeds
the style-route `GET` handler (the variant with `validateJsonFormat`).  The
Redis connection is abstracted to an association list from keys to stored
values plus per-request fault flags for the two `try`-guarded Redis blocks;
`fetch` is an `Except Unit` whose `.error` models a rejected promise. -/

/-- A `console.warn` / `console.error` call.  Messages that interpolate the
target URL (which embeds the `MAPTILER_KEY` environment value) are modelled
without the URL. -/
inductive LogEvent
  | warn (msg : String)
  | error (msg : String)
deriving DecidableEq

/-- An HTTP response body: a text body or a binary buffer body. -/
inductive Body
  | text (s : String)
  | bytes (b : List Byte)
deriving DecidableEq

/-- The observable parts of a `NextResponse` built by the handlers: status and
the three explicitly set headers (absent on the error responses). -/
structure HttpResponse where
  status : Nat
  body : Body
  contentType : Option String
  cacheControl : Option String
  xCacheStatus : Option String
deriving DecidableEq

/-- A `redis.set` call: key, stored value, and the TTL option (`EX` seconds)
passed to the call, if any. -/
structure CacheWrite (V : Type) where
  key : String
  value : V
  ttl : Option Nat
deriving DecidableEq

/-- Result of a handler run that produced a response: the response, the cache
contents afterwards, the `redis.set` calls performed, and the log trail. -/
structure Outcome (V : Type) where
  response : HttpResponse
  cache : List (String × V)
  writes : List (CacheWrite V)
  logs : List LogEvent
deriving DecidableEq

/-- A handler run either returns a response or lets an exception escape (the
logs emitted before the throw are kept). -/
inductive RunResult (V : Type)
  | resp (out : Outcome V)
  | thrown (logs : List LogEvent)
deriving DecidableEq

/-- The HTTP response of a run, if one was produced. -/
def RunResult.httpResponse {V : Type} : RunResult V → Option HttpResponse
  | RunResult.resp out => some out.response
  | RunResult.thrown _ => none

/-- The log trail of a run. -/
def RunResult.allLogs {V : Type} : RunResult V → List LogEvent
  | RunResult.resp out => out.logs
  | RunResult.thrown logs => logs

/-- The `redis.set` calls performed by a run. -/
def RunResult.allWrites {V : Type} : RunResult V → List (CacheWrite V)
  | RunResult.resp out => out.writes
  | RunResult.thrown _ => []

/-- Redis `GET key`: first matching entry of the association list. -/
def cacheLookup {V : Type} : List (String × V) → String → Option V
  | [], _ => none
  | (k, v) :: rest, key => if k = key then some v else cacheLookup rest key

/-- Remove every entry of a key from the cache (used to compare a run against
the same run without the entry). -/
def cacheErase {V : Type} : List (String × V) → String → List (String × V)
  | [], _ => []
  | (k, v) :: rest, key =>
    if k = key then cacheErase rest key else (k, v) :: cacheErase rest key

/-- `Response.ok` of the Fetch API: status in the inclusive range 200–299. -/
def respOk (status : Nat) : Bool :=
  decide (200 ≤ status ∧ status ≤ 299)

/-- The upstream tile response: status, the `Content-Type` response header
(absent if the origin sent none), and the body bytes. -/
structure OriginResponse where
  status : Nat
  contentTypeHeader : Option String
  body : List Byte
deriving DecidableEq

/-- The tile route's fresh-payload check,
`response.headers.get("Content-Type")?.startsWith(contentType)`: a missing
header is `undefined`, which is falsy. -/
def declaredTypeOk (header : Option String) (contentType : String) : Bool :=
  match header with
  | none => false
  | some h => strStartsWith h contentType

/-- The tile route's first `try` block: `redis.get`, truthiness check, byte
validation of the cached payload.  Returns the early response (if any) and
the logs the block emitted. -/
def tileCacheStage (cache : List (String × List Byte)) (getFails : Bool)
    (cacheKey contentType : String) : Option HttpResponse × List LogEvent :=
  if getFails then
    (none, [LogEvent.error ("Redis GET error for key " ++ cacheKey)])
  else
    match cacheLookup cache cacheKey with
    | none => (none, [])
    | some cachedData =>
      if cachedData.isEmpty then (none, [])
      else if validateContentType cachedData contentType then
        (some ⟨200, Body.bytes cachedData, some contentType,
          some "public, max-age=31536000, immutable", some "HIT"⟩, [])
      else
        (none, [LogEvent.warn ("Validation failed for cached data with key " ++ cacheKey)])

/-- The tile route after the cache stage produced no response: origin fetch,
`response.ok` check, declared-content-type check, best-effort `redis.set`
(with no TTL option), and the MISS response. -/
def tileAfterCache (path : List String) (cache : List (String × List Byte))
    (setFails : Bool) (origin : Except Unit OriginResponse) (logs : List LogEvent) :
    RunResult (List Byte) :=
  match origin with
  | Except.error _ => RunResult.thrown logs
  | Except.ok response =>
    if respOk response.status = false then
      RunResult.resp ⟨⟨404, Body.text (joinSlash path ++ " not found"), none, none, none⟩,
        cache, [], logs⟩
    else if declaredTypeOk response.contentTypeHeader (getContentType (joinSlash path))
        = false then
      RunResult.resp ⟨⟨400, Body.text "Invalid content format", none, none, none⟩,
        cache, [],
        logs ++ [LogEvent.error ("Validation failed: Expected Content-Type "
          ++ getContentType (joinSlash path))]⟩
    else if setFails then
      RunResult.resp ⟨⟨200, Body.bytes response.body,
        some (getContentType (joinSlash path)),
        some "public, max-age=31536000, immutable", some "MISS"⟩,
        cache, [],
        logs ++ [LogEvent.error ("Redis SET error for key " ++ ("tile:" ++ joinSlash path))]⟩
    else
      RunResult.resp ⟨⟨200, Body.bytes response.body,
        some (getContentType (joinSlash path)),
        some "public, max-age=31536000, immutable", some "MISS"⟩,
        ("tile:" ++ joinSlash path, response.body) :: cache,
        [⟨"tile:" ++ joinSlash path, response.body, none⟩], logs⟩

/-- Embedding of the tile route's `GET`: missing `params.path` check, cache
stage, then origin stage. -/
def tileGET (pathParams : Option (List String)) (cache : List (String × List Byte))
    (getFails setFails : Bool) (origin : Except Unit OriginResponse) :
    RunResult (List Byte) :=
  match pathParams with
  | none =>
    RunResult.resp ⟨⟨400, Body.text "Invalid request: Missing path parameters",
      none, none, none⟩, cache, [], []⟩
  | some path =>
    match tileCacheStage cache getFails ("tile:" ++ joinSlash path)
        (getContentType (joinSlash path)) with
    | (some r, logs) => RunResult.resp ⟨r, cache, [], logs⟩
    | (none, logs) => tileAfterCache path cache setFails origin logs

/-- The upstream style response: status and the body text. -/
structure StyleOriginResponse where
  status : Nat
  bodyText : String
deriving DecidableEq

/-- The style route's first `try` block: `redis.get`, truthiness check, JSON
validation of the cached style. -/
def styleCacheStage (cache : List (String × String)) (getFails : Bool)
    (cacheKey : String) : Option HttpResponse × List LogEvent :=
  if getFails then
    (none, [LogEvent.error ("Redis GET error for style " ++ cacheKey)])
  else
    match cacheLookup cache cacheKey with
    | none => (none, [])
    | some cachedStyle =>
      if cachedStyle = "" then (none, [])
      else if validateJsonFormat cachedStyle then
        (some ⟨200, Body.text cachedStyle, some "application/json",
          some "public, immutable", some "HIT"⟩, [])
      else
        (none, [LogEvent.warn ("Validation failed for cached data with key " ++ cacheKey)])

/-- The style route after the cache stage produced no response: origin fetch,
`response.ok` check, JSON validation of the fetched text, best-effort
`redis.set` (no TTL option), and the MISS response. -/
def styleAfterCache (style : List String) (cache : List (String × String))
    (setFails : Bool) (origin : Except Unit StyleOriginResponse) (logs : List LogEvent) :
    RunResult String :=
  match origin with
  | Except.error _ => RunResult.thrown logs
  | Except.ok response =>
    if respOk response.status = false then
      RunResult.resp ⟨⟨404, Body.text "Style not found", none, none, none⟩,
        cache, [], logs⟩
    else if validateJsonFormat response.bodyText = false then
      RunResult.resp ⟨⟨400, Body.text "Invalid content format", none, none, none⟩,
        cache, [],
        logs ++ [LogEvent.error "Validation failed for fetched data from target URL"]⟩
    else if setFails then
      RunResult.resp ⟨⟨200, Body.text response.bodyText, some "application/json",
        some "public, immutable", some "MISS"⟩,
        cache, [],
        logs ++ [LogEvent.error ("Redis SET error for style "
          ++ ("style:" ++ joinSlash style))]⟩
    else
      RunResult.resp ⟨⟨200, Body.text response.bodyText, some "application/json",
        some "public, immutable", some "MISS"⟩,
        ("style:" ++ joinSlash style, response.bodyText) :: cache,
        [⟨"style:" ++ joinSlash style, response.bodyText, none⟩], logs⟩

/-- Embedding of the style route's `GET`: missing `params.style` check, cache
stage, then origin stage. -/
def styleGET (styleParams : Option (List String)) (cache : List (String × String))
    (getFails setFails : Bool) (origin : Except Unit StyleOriginResponse) :
    RunResult String :=
  match styleParams with
  | none =>
    RunResult.resp ⟨⟨400, Body.text "Invalid request: Missing path parameters",
      none, none, none⟩, cache, [], []⟩
  | some style =>
    match styleCacheStage cache getFails ("style:" ++ joinSlash style) with
    | (some r, logs) => RunResult.resp ⟨r, cache, [], logs⟩
    | (none, logs) => styleAfterCache style cache setFails origin logs

/-! ## Supporting lemmas -/

lemma hexDigitF_inj : Function.Injective hexDigitF := by decide

lemma bufHexChars_inj (l1 l2 : List Byte) (h : bufHexChars l1 = bufHexChars l2) :
    l1 = l2 := by
  induction l1 generalizing l2 with
  | nil =>
    cases l2 with
    | nil => rfl
    | cons b r => simp [bufHexChars] at h
  | cons a r ih =>
    cases l2 with
    | nil => simp [bufHexChars] at h
    | cons b r2 =>
      simp only [bufHexChars, List.cons.injEq] at h
      obtain ⟨h1, h2, h3⟩ := h
      have e1 : a.val / 16 = b.val / 16 := congrArg Fin.val (hexDigitF_inj h1)
      have e2 : a.val % 16 = b.val % 16 := congrArg Fin.val (hexDigitF_inj h2)
      have hv : a = b := by
        apply Fin.ext
        omega
      rw [hv, ih r2 h3]

lemma bufHex_eq_iff (l1 l2 : List Byte) : bufHex l1 = bufHex l2 ↔ l1 = l2 := by
  constructor
  · intro h
    exact bufHexChars_inj l1 l2 (congrArg String.data h)
  · intro h
    rw [h]

lemma bufSlice_zero (l : List Byte) (j : Nat) : bufSlice l 0 j = l.take j := by
  simp [bufSlice]

set_option maxRecDepth 8192 in
lemma charOfNat_inj128 (x y : Fin 128) (h : Char.ofNat x.val = Char.ofNat y.val) :
    x = y := by
  revert h
  revert x y
  decide

lemma asciiChar_eq_iff (b : Byte) (w : Fin 128) :
    asciiChar b = Char.ofNat w.val ↔ b.val % 128 = w.val := by
  constructor
  · intro h
    have := charOfNat_inj128 ⟨b.val % 128, Nat.mod_lt _ (by norm_num)⟩ w h
    exact congrArg Fin.val this
  · intro h
    simp [asciiChar, h]

lemma mapAscii_eq (l : List Byte) (ws : List (Fin 128)) :
    l.map asciiChar = ws.map (fun w => Char.ofNat w.val)
      ↔ l.map (fun b => b.val % 128) = ws.map Fin.val := by
  induction l generalizing ws with
  | nil => cases ws <;> simp
  | cons a r ih =>
    cases ws with
    | nil => simp
    | cons w ws2 =>
      simp only [List.map_cons, List.cons.injEq]
      rw [asciiChar_eq_iff, ih]

lemma validateContentType_nil (ct : String) : validateContentType [] ct = false := by
  have h1 : ¬ (bufHex (bufSlice [] 0 8) = "89504e470d0a1a0a") := by decide
  have h2 : ¬ (bufHex (bufSlice [] 0 2) = "ffd8") := by decide
  have h3 : ¬ (bufHex (bufSlice [] 0 4) = "52494646") := by decide
  have h4 : ¬ (bufHex (bufSlice [] 0 4) = "504b0304") := by decide
  have h5 : ¬ (bufAscii (bufSlice [] 0 1) = "\x7b") := by decide
  simp [validateContentType, h1, h2, h3, h4, h5]

lemma validate_true_ne_nil (v : List Byte) (ct : String)
    (h : validateContentType v ct = true) : v ≠ [] := by
  intro hv
  rw [hv, validateContentType_nil] at h
  exact Bool.false_ne_true h

lemma cacheLookup_cacheErase {V : Type} (c : List (String × V)) (k : String) :
    cacheLookup (cacheErase c k) k = none := by
  induction c with
  | nil => rfl
  | cons p rest ih =>
    obtain ⟨pk, pv⟩ := p
    by_cases h : pk = k
    · simp [cacheErase, h, ih]
    · simp [cacheErase, cacheLookup, h, ih]

lemma isPrefixOf_append_self (l m : List Char) : l.isPrefixOf (l ++ m) = true := by
  induction l with
  | nil => simp [List.isPrefixOf]
  | cons c r ih => simp [List.isPrefixOf, ih]

lemma infixOfB_self_append (n h : List Char) : infixOfB n (n ++ h) = true := by
  cases n with
  | nil =>
    cases h with
    | nil => rfl
    | cons c r => simp [infixOfB]
  | cons c r =>
    have hp := isPrefixOf_append_self (c :: r) h
    simp [infixOfB, List.append_eq, hp]

lemma strMentions_append_self (s t : String) : strMentions (s ++ t) s = true := by
  simp only [strMentions, String.data_append]
  exact infixOfB_self_append s.data t.data

lemma bufAscii_eq_mask (l : List Byte) (ws : List (Fin 128)) :
    bufAscii l = String.mk (ws.map fun w => Char.ofNat w.val)
      ↔ l.map (fun b => b.val % 128) = ws.map Fin.val := by
  constructor
  · intro h
    exact (mapAscii_eq l ws).mp (congrArg String.data h)
  · intro h
    exact congrArg String.mk ((mapAscii_eq l ws).mpr h)

lemma validate_png_iff (d : List Byte) :
    validateContentType d "image/png" = true ↔ d.take 8 = pngSig := by
  have h2 : ¬(("image/png" : String) = "image/jpeg") := by decide
  have h3 : ¬(("image/png" : String) = "image/webp") := by decide
  have h4 : ¬(("image/png" : String) = "application/x-protobuf") := by decide
  have h5 : ¬(("image/png" : String) = "application/json") := by decide
  have hlit : ("89504e470d0a1a0a" : String) = bufHex pngSig := by decide
  simp [validateContentType, hlit, bufSlice_zero, bufHex_eq_iff, h2, h3, h4, h5]

lemma validate_jpeg_iff (d : List Byte) :
    validateContentType d "image/jpeg" = true ↔ d.take 2 = jpegSig := by
  have h1 : ¬(("image/jpeg" : String) = "image/png") := by decide
  have h3 : ¬(("image/jpeg" : String) = "image/webp") := by decide
  have h4 : ¬(("image/jpeg" : String) = "application/x-protobuf") := by decide
  have h5 : ¬(("image/jpeg" : String) = "application/json") := by decide
  have hlit : ("ffd8" : String) = bufHex jpegSig := by decide
  simp [validateContentType, hlit, bufSlice_zero, bufHex_eq_iff, h1, h3, h4, h5]

lemma validate_webp_iff (d : List Byte) :
    validateContentType d "image/webp" = true
      ↔ d.take 4 = riffSig
        ∧ (bufSlice d 8 12).map (fun b => b.val % 128) = [87, 69, 66, 80] := by
  have h1 : ¬(("image/webp" : String) = "image/png") := by decide
  have h2 : ¬(("image/webp" : String) = "image/jpeg") := by decide
  have h4 : ¬(("image/webp" : String) = "application/x-protobuf") := by decide
  have h5 : ¬(("image/webp" : String) = "application/json") := by decide
  have hlit : ("52494646" : String) = bufHex riffSig := by decide
  have hlit2 : ("WEBP" : String) = String.mk (webpMask.map fun w => Char.ofNat w.val) := by
    decide
  have hm : webpMask.map Fin.val = [87, 69, 66, 80] := by decide
  simp [validateContentType, hlit, hlit2, bufSlice_zero, bufHex_eq_iff,
    bufAscii_eq_mask, hm, h1, h2, h4, h5]

lemma validate_pbf_iff (d : List Byte) :
    validateContentType d "application/x-protobuf" = true ↔ d.take 4 = zipSig := by
  have h1 : ¬(("application/x-protobuf" : String) = "image/png") := by decide
  have h2 : ¬(("application/x-protobuf" : String) = "image/jpeg") := by decide
  have h3 : ¬(("application/x-protobuf" : String) = "image/webp") := by decide
  have h5 : ¬(("application/x-protobuf" : String) = "application/json") := by decide
  have hlit : ("504b0304" : String) = bufHex zipSig := by decide
  simp [validateContentType, hlit, bufSlice_zero, bufHex_eq_iff, h1, h2, h3, h5]

lemma validate_octet_false (d : List Byte) :
    validateContentType d "application/octet-stream" = false := by
  have h1 : ¬(("application/octet-stream" : String) = "image/png") := by decide
  have h2 : ¬(("application/octet-stream" : String) = "image/jpeg") := by decide
  have h3 : ¬(("application/octet-stream" : String) = "image/webp") := by decide
  have h4 : ¬(("application/octet-stream" : String) = "application/x-protobuf") := by decide
  have h5 : ¬(("application/octet-stream" : String) = "application/json") := by decide
  simp [validateContentType, h1, h2, h3, h4, h5]

lemma tileAfterCache_httpResponse_congr (path : List String)
    (c c' : List (String × List Byte)) (sf : Bool) (o : Except Unit OriginResponse)
    (l l' : List LogEvent) :
    (tileAfterCache path c sf o l).httpResponse
      = (tileAfterCache path c' sf o l').httpResponse := by
  cases o with
  | error e => rfl
  | ok r =>
    cases sf <;>
      simp only [tileAfterCache] <;>
      by_cases hok : respOk r.status = false <;>
      by_cases hh : declaredTypeOk r.contentTypeHeader (getContentType (joinSlash path))
        = false <;>
      simp [hok, hh, RunResult.httpResponse]

lemma tileAfterCache_allLogs_split (path : List String)
    (c : List (String × List Byte)) (sf : Bool) (o : Except Unit OriginResponse)
    (l : List LogEvent) :
    (tileAfterCache path c sf o l).allLogs
      = l ++ (tileAfterCache path c sf o []).allLogs := by
  cases o with
  | error e => simp [tileAfterCache, RunResult.allLogs]
  | ok r =>
    cases sf <;>
      simp only [tileAfterCache] <;>
      by_cases hok : respOk r.status = false <;>
      by_cases hh : declaredTypeOk r.contentTypeHeader (getContentType (joinSlash path))
        = false <;>
      simp [hok, hh, RunResult.allLogs]

lemma tileAfterCache_allLogs_congr (path : List String)
    (c c' : List (String × List Byte)) (sf : Bool) (o : Except Unit OriginResponse)
    (l : List LogEvent) :
    (tileAfterCache path c sf o l).allLogs = (tileAfterCache path c' sf o l).allLogs := by
  cases o with
  | error e => rfl
  | ok r =>
    cases sf <;>
      simp only [tileAfterCache] <;>
      by_cases hok : respOk r.status = false <;>
      by_cases hh : declaredTypeOk r.contentTypeHeader (getContentType (joinSlash path))
        = false <;>
      simp [hok, hh, RunResult.allLogs]

lemma validate_json_iff (d : List Byte) :
    validateContentType d "application/json" = true
      ↔ ∃ b rest, d = b :: rest ∧ b.val % 128 = 123 := by
  have h1 : ¬(("application/json" : String) = "image/png") := by decide
  have h2 : ¬(("application/json" : String) = "image/jpeg") := by decide
  have h3 : ¬(("application/json" : String) = "image/webp") := by decide
  have h4 : ¬(("application/json" : String) = "application/x-protobuf") := by decide
  have hlit : ("\x7b" : String) = String.mk (jsonMask.map fun w => Char.ofNat w.val) := by
    decide
  cases d with
  | nil =>
    have hne : ¬ (bufAscii (bufSlice [] 0 1) = "\x7b") := by decide
    simp [validateContentType, h1, h2, h3, h4, hne]
  | cons b rest =>
    have hm : jsonMask.map Fin.val = [123] := by decide
    have hsl : bufSlice (b :: rest) 0 1 = [b] := rfl
    simp [validateContentType, h1, h2, h3, h4, hlit, hsl, bufAscii_eq_mask, hm]

/-! ## Claim theorems -/

/-- C1 (counterexample): the tile handler does not byte-validate a freshly
fetched payload.  With an empty cache, a `.png` path and an origin 200 whose
declared `Content-Type` header is `image/png` but whose bytes `[0, 1, 2]` fail
`validateContentType`, the handler responds 200 with `X-Cache-Status: MISS`,
serves those bytes, and writes them to the cache — contradicting the claim
that such a request yields 400 with nothing cached. -/
theorem c1_fresh_payload_counterexample :
    validateContentType [0, 1, 2] "image/png" = false
    ∧ tileGET (some ["x.png"]) [] false false
        (Except.ok ⟨200, some "image/png", [0, 1, 2]⟩)
      = RunResult.resp ⟨⟨200, Body.bytes [0, 1, 2], some "image/png",
          some "public, max-age=31536000, immutable", some "MISS"⟩,
          [("tile:x.png", [0, 1, 2])], [⟨"tile:x.png", [0, 1, 2], none⟩], []⟩ := by
  decide

/-- C1 (amended): on a freshly fetched origin 2xx payload the tile handler
validates only the origin's declared `Content-Type` header against the
expected type derived from the path suffix.  Whenever that header check fails
(header absent or not starting with the expected type), the handler responds
400 with body `Invalid content format`, writes nothing to the cache, and does
not serve the payload; the payload bytes themselves are not validated on this
path. -/
theorem c1_fresh_header_mismatch_rejected (path : List String)
    (cache : List (String × List Byte)) (getFails setFails : Bool)
    (r : OriginResponse) (logs1 : List LogEvent)
    (hstage : tileCacheStage cache getFails ("tile:" ++ joinSlash path)
      (getContentType (joinSlash path)) = (none, logs1))
    (hok : respOk r.status = true)
    (hhdr : declaredTypeOk r.contentTypeHeader (getContentType (joinSlash path)) = false) :
    tileGET (some path) cache getFails setFails (Except.ok r)
      = RunResult.resp ⟨⟨400, Body.text "Invalid content format", none, none, none⟩,
          cache, [],
          logs1 ++ [LogEvent.error ("Validation failed: Expected Content-Type "
            ++ getContentType (joinSlash path))]⟩ := by
  simp [tileGET, hstage, tileAfterCache, hok, hhdr]

/-- C1 (witness): the amended theorem applied at a concrete input — origin
returns 200 for `x.png` with declared type `text/html`, the handler answers
400 and the cache stays empty. -/
theorem c1_witness :
    tileGET (some ["x.png"]) [] false false (Except.ok ⟨200, some "text/html", pngSig⟩)
      = RunResult.resp ⟨⟨400, Body.text "Invalid content format", none, none, none⟩,
          [], [],
          [LogEvent.error ("Validation failed: Expected Content-Type "
            ++ getContentType (joinSlash ["x.png"]))]⟩ := by
  have h := c1_fresh_header_mismatch_rejected ["x.png"] [] false false
    ⟨200, some "text/html", pngSig⟩ [] (by decide) (by decide) (by decide)
  simpa using h

/-- C4 (counterexample): for a style request whose origin returns non-2xx the
handler answers 404 with the fixed body `Style not found`, which does not
mention the requested path `unknown-style/style.json` — contradicting the
claim that the 404 body carries the originally requested path for every
request. -/
theorem c4_style_body_counterexample :
    styleGET (some ["unknown-style", "style.json"]) [] false false
        (Except.ok ⟨404, "x"⟩)
      = RunResult.resp ⟨⟨404, Body.text "Style not found", none, none, none⟩, [], [], []⟩
    ∧ strMentions "Style not found" (joinSlash ["unknown-style", "style.json"]) = false := by
  decide

/-- C4 (amended): on a non-2xx origin response neither route writes to the
cache and both answer 404; the tile route's body is the requested path
followed by ` not found` (so it mentions the path), while the style route's
body is the fixed text `Style not found`, which does not carry the path. -/
theorem c4_notfound_responses :
    (∀ (path : List String) (cache : List (String × List Byte))
       (getFails setFails : Bool) (r : OriginResponse) (logs1 : List LogEvent),
       tileCacheStage cache getFails ("tile:" ++ joinSlash path)
           (getContentType (joinSlash path)) = (none, logs1) →
       respOk r.status = false →
       tileGET (some path) cache getFails setFails (Except.ok r)
           = RunResult.resp ⟨⟨404, Body.text (joinSlash path ++ " not found"),
               none, none, none⟩, cache, [], logs1⟩
         ∧ strMentions (joinSlash path ++ " not found") (joinSlash path) = true)
    ∧ (∀ (style : List String) (cache : List (String × String))
       (getFails setFails : Bool) (r : StyleOriginResponse) (logs1 : List LogEvent),
       styleCacheStage cache getFails ("style:" ++ joinSlash style) = (none, logs1) →
       respOk r.status = false →
       styleGET (some style) cache getFails setFails (Except.ok r)
         = RunResult.resp ⟨⟨404, Body.text "Style not found", none, none, none⟩,
             cache, [], logs1⟩) := by
  constructor
  · intro path cache getFails setFails r logs1 hstage hnok
    constructor
    · simp [tileGET, hstage, tileAfterCache, hnok]
    · exact strMentions_append_self (joinSlash path) " not found"
  · intro style cache getFails setFails r logs1 hstage hnok
    simp [styleGET, hstage, styleAfterCache, hnok]

/-- C4 (witness): the amended theorem applied at concrete inputs — a tile
request for `a/1.png` and a style request for `s/style.json`, both with an
empty cache and an origin 404. -/
theorem c4_witness :
    (tileGET (some ["a", "1.png"]) [] false false (Except.ok ⟨404, none, []⟩)
       = RunResult.resp ⟨⟨404, Body.text (joinSlash ["a", "1.png"] ++ " not found"),
           none, none, none⟩, [], [], []⟩
     ∧ strMentions (joinSlash ["a", "1.png"] ++ " not found") (joinSlash ["a", "1.png"])
         = true)
    ∧ styleGET (some ["s", "style.json"]) [] false false (Except.ok ⟨404, "x"⟩)
      = RunResult.resp ⟨⟨404, Body.text "Style not found", none, none, none⟩,
          [], [], []⟩ := by
  constructor
  · exact c4_notfound_responses.1 ["a", "1.png"] [] false false ⟨404, none, []⟩ []
      (by decide) (by decide)
  · exact c4_notfound_responses.2 ["s", "style.json"] [] false false ⟨404, "x"⟩ []
      (by decide) (by decide)

/-- C10 (confirmed): a transport-level rejection of the origin `fetch` is not
handled by either route: whenever the cache stage produced no early response,
the exception escapes the handler and no HTTP response is produced (only the
cache-layer `try` blocks catch anything). -/
theorem c10_fetch_rejection_propagates :
    (∀ (path : List String) (cache : List (String × List Byte))
       (getFails setFails : Bool) (logs1 : List LogEvent),
       tileCacheStage cache getFails ("tile:" ++ joinSlash path)
           (getContentType (joinSlash path)) = (none, logs1) →
       tileGET (some path) cache getFails setFails (Except.error ())
         = RunResult.thrown logs1)
    ∧ (∀ (style : List String) (cache : List (String × String))
       (getFails setFails : Bool) (logs1 : List LogEvent),
       styleCacheStage cache getFails ("style:" ++ joinSlash style) = (none, logs1) →
       styleGET (some style) cache getFails setFails (Except.error ())
         = RunResult.thrown logs1) := by
  constructor
  · intro path cache getFails setFails logs1 hstage
    simp [tileGET, hstage, tileAfterCache]
  · intro style cache getFails setFails logs1 hstage
    simp [styleGET, hstage, styleAfterCache]

/-- C10 (witness): the theorem applied at concrete inputs — with an empty
cache (and, for the style route, a failing cache `get`) a rejected fetch
makes both handlers end in a thrown exception with no HTTP response. -/
theorem c10_witness :
    tileGET (some ["x.pbf"]) [] false false (Except.error ()) = RunResult.thrown []
    ∧ styleGET (some ["hybrid", "style.json"]) [] true false (Except.error ())
      = RunResult.thrown [LogEvent.error
          ("Redis GET error for style " ++ ("style:" ++ joinSlash ["hybrid", "style.json"]))] := by
  constructor
  · exact c10_fetch_rejection_propagates.1 ["x.pbf"] [] false false [] (by decide)
  · exact c10_fetch_rejection_propagates.2 ["hybrid", "style.json"] [] true false _ (by decide)

/-- C9 (counterexample): a successful tile MISS performs a `redis.set` whose
TTL option is `none` — the tile route stores entries without a TTL, so the
claim that every tile cache write carries a TTL fails on this run. -/
theorem c9_no_ttl_counterexample :
    ∃ w ∈ (tileGET (some ["x.png"]) [] false false
        (Except.ok ⟨200, some "image/png", pngSig⟩)).allWrites,
      w.ttl = none := by
  decide

/-- C9 (amended): the tile route's expiry policy is uniform, but it is the
no-TTL policy: every `redis.set` performed by any tile-route run passes no
TTL option, so tile entries do not expire by TTL. -/
theorem c9_tile_writes_uniform_no_ttl (pathParams : Option (List String))
    (cache : List (String × List Byte)) (getFails setFails : Bool)
    (origin : Except Unit OriginResponse) :
    ∀ w ∈ (tileGET pathParams cache getFails setFails origin).allWrites, w.ttl = none := by
  intro w hw
  cases pathParams with
  | none => simp [tileGET, RunResult.allWrites] at hw
  | some path =>
    rcases hh : tileCacheStage cache getFails ("tile:" ++ joinSlash path)
        (getContentType (joinSlash path)) with ⟨early, logs⟩
    cases early with
    | some r => simp [tileGET, hh, RunResult.allWrites] at hw
    | none =>
      simp only [tileGET, hh] at hw
      cases origin with
      | error e => simp [tileAfterCache, RunResult.allWrites] at hw
      | ok r =>
        by_cases hok : respOk r.status = false
        · simp [tileAfterCache, hok, RunResult.allWrites] at hw
        · by_cases hd : declaredTypeOk r.contentTypeHeader
              (getContentType (joinSlash path)) = false
          · simp [tileAfterCache, hok, hd, RunResult.allWrites] at hw
          · cases setFails with
            | false =>
              simp [tileAfterCache, hok, hd, RunResult.allWrites] at hw
              simp [hw]
            | true => simp [tileAfterCache, hok, hd, RunResult.allWrites] at hw

/-- C9 (witness): the amended theorem applied at a concrete successful MISS
run, whose single cache write indeed has no TTL. -/
theorem c9_witness :
    (⟨"tile:" ++ joinSlash ["x.png"], pngSig, none⟩ : CacheWrite (List Byte)).ttl = none :=
  c9_tile_writes_uniform_no_ttl (some ["x.png"]) [] false false
    (Except.ok ⟨200, some "image/png", pngSig⟩) _ (by decide)

/-- C5 (confirmed): if a first request for a path completes a successful MISS
— the cache stage found nothing, the origin returned 2xx with a matching
declared type, the payload passes `validateContentType` for the expected
type, and the `redis.set` succeeds — then a second request for the same path
that finds the stored entry answers 200 with `X-Cache-Status: HIT` and a
byte-identical body (both bodies are exactly the origin bytes). -/
theorem c5_second_request_hits (path : List String)
    (cache : List (String × List Byte)) (getFails sf2 : Bool)
    (r : OriginResponse) (origin2 : Except Unit OriginResponse)
    (logs1 : List LogEvent)
    (hstage : tileCacheStage cache getFails ("tile:" ++ joinSlash path)
      (getContentType (joinSlash path)) = (none, logs1))
    (hok : respOk r.status = true)
    (hhdr : declaredTypeOk r.contentTypeHeader (getContentType (joinSlash path)) = true)
    (hval : validateContentType r.body (getContentType (joinSlash path)) = true) :
    tileGET (some path) cache getFails false (Except.ok r)
      = RunResult.resp ⟨⟨200, Body.bytes r.body, some (getContentType (joinSlash path)),
          some "public, max-age=31536000, immutable", some "MISS"⟩,
          ("tile:" ++ joinSlash path, r.body) :: cache,
          [⟨"tile:" ++ joinSlash path, r.body, none⟩], logs1⟩
    ∧ tileGET (some path) (("tile:" ++ joinSlash path, r.body) :: cache) false sf2 origin2
      = RunResult.resp ⟨⟨200, Body.bytes r.body, some (getContentType (joinSlash path)),
          some "public, max-age=31536000, immutable", some "HIT"⟩,
          ("tile:" ++ joinSlash path, r.body) :: cache, [], []⟩ := by
  have hne : r.body ≠ [] := validate_true_ne_nil _ _ hval
  have hie : r.body.isEmpty = false := by
    cases hb : r.body with
    | nil => exact absurd hb hne
    | cons a t => simp
  constructor
  · simp [tileGET, hstage, tileAfterCache, hok, hhdr]
  · have hstage2 : tileCacheStage (("tile:" ++ joinSlash path, r.body) :: cache) false
        ("tile:" ++ joinSlash path) (getContentType (joinSlash path))
        = (some ⟨200, Body.bytes r.body, some (getContentType (joinSlash path)),
            some "public, max-age=31536000, immutable", some "HIT"⟩, []) := by
      simp [tileCacheStage, cacheLookup, hie, hval]
    simp [tileGET, hstage2]

/-- C5 (witness): the theorem applied at a concrete input — first request for
`a.png` with empty cache and a valid PNG origin payload stores the bytes; the
second request is a HIT with the identical body. -/
theorem c5_witness :
    tileGET (some ["a.png"]) [] false false (Except.ok ⟨200, some "image/png", pngSig⟩)
      = RunResult.resp ⟨⟨200, Body.bytes pngSig, some (getContentType (joinSlash ["a.png"])),
          some "public, max-age=31536000, immutable", some "MISS"⟩,
          [("tile:" ++ joinSlash ["a.png"], pngSig)],
          [⟨"tile:" ++ joinSlash ["a.png"], pngSig, none⟩], []⟩
    ∧ tileGET (some ["a.png"]) [("tile:" ++ joinSlash ["a.png"], pngSig)] false false
        (Except.error ())
      = RunResult.resp ⟨⟨200, Body.bytes pngSig, some (getContentType (joinSlash ["a.png"])),
          some "public, max-age=31536000, immutable", some "HIT"⟩,
          [("tile:" ++ joinSlash ["a.png"], pngSig)], [], []⟩ :=
  c5_second_request_hits ["a.png"] [] false false ⟨200, some "image/png", pngSig⟩
    (Except.error ()) [] (by decide) (by decide) (by decide) (by decide)

/-- C6 (confirmed): when a cached tile payload fails validation against the
expected content type, the handler logs exactly one extra warning and behaves
as if the entry were absent: the HTTP outcome (response or propagated
exception) equals that of the same request with the entry erased from the
cache, so the invalid cached content never causes a client-visible error. -/
theorem c6_invalid_cached_hit_is_miss (path : List String)
    (cache : List (String × List Byte)) (setFails : Bool)
    (origin : Except Unit OriginResponse) (cached : List Byte)
    (hlook : cacheLookup cache ("tile:" ++ joinSlash path) = some cached)
    (hne : cached ≠ [])
    (hval : validateContentType cached (getContentType (joinSlash path)) = false) :
    (tileGET (some path) cache false setFails origin).httpResponse
      = (tileGET (some path) (cacheErase cache ("tile:" ++ joinSlash path))
          false setFails origin).httpResponse
    ∧ (tileGET (some path) cache false setFails origin).allLogs
      = LogEvent.warn ("Validation failed for cached data with key "
          ++ ("tile:" ++ joinSlash path))
        :: (tileGET (some path) (cacheErase cache ("tile:" ++ joinSlash path))
            false setFails origin).allLogs := by
  have hie : cached.isEmpty = false := by
    cases hb : cached with
    | nil => exact absurd hb hne
    | cons a t => simp
  have hstage1 : tileCacheStage cache false ("tile:" ++ joinSlash path)
      (getContentType (joinSlash path))
      = (none, [LogEvent.warn ("Validation failed for cached data with key "
          ++ ("tile:" ++ joinSlash path))]) := by
    simp [tileCacheStage, hlook, hie, hval]
  have hstage2 : tileCacheStage (cacheErase cache ("tile:" ++ joinSlash path)) false
      ("tile:" ++ joinSlash path) (getContentType (joinSlash path)) = (none, []) := by
    simp [tileCacheStage, cacheLookup_cacheErase]
  constructor
  · simp only [tileGET, hstage1, hstage2]
    exact tileAfterCache_httpResponse_congr path cache _ setFails origin _ _
  · simp only [tileGET, hstage1, hstage2]
    rw [tileAfterCache_allLogs_split path cache setFails origin,
      tileAfterCache_allLogs_split path (cacheErase cache ("tile:" ++ joinSlash path))
        setFails origin,
      tileAfterCache_allLogs_congr path cache
        (cacheErase cache ("tile:" ++ joinSlash path)) setFails origin []]
    simp

/-- C6 (witness): the theorem applied at a concrete input — a cached `a.png`
payload `[0, 1]` fails PNG validation, the handler refetches from the origin
and responds exactly as it would on a miss, with one warning logged. -/
theorem c6_witness :
    (tileGET (some ["a.png"]) [("tile:a.png", [0, 1])] false false
        (Except.ok ⟨200, some "image/png", pngSig⟩)).httpResponse
      = (tileGET (some ["a.png"]) (cacheErase [("tile:a.png", [0, 1])] ("tile:" ++ joinSlash ["a.png"]))
          false false (Except.ok ⟨200, some "image/png", pngSig⟩)).httpResponse
    ∧ (tileGET (some ["a.png"]) [("tile:a.png", [0, 1])] false false
        (Except.ok ⟨200, some "image/png", pngSig⟩)).allLogs
      = LogEvent.warn ("Validation failed for cached data with key "
          ++ ("tile:" ++ joinSlash ["a.png"]))
        :: (tileGET (some ["a.png"]) (cacheErase [("tile:a.png", [0, 1])] ("tile:" ++ joinSlash ["a.png"]))
            false false (Except.ok ⟨200, some "image/png", pngSig⟩)).allLogs :=
  c6_invalid_cached_hit_is_miss ["a.png"] [("tile:a.png", [0, 1])] false
    (Except.ok ⟨200, some "image/png", pngSig⟩) [0, 1] (by decide) (by decide) (by decide)

/-- C7 (confirmed): cache-layer faults never reach the client.  A failing
`redis.get` yields exactly the HTTP outcome of the same request against an
empty, healthy cache; with a valid origin payload that request still resolves
200 with `X-Cache-Status: MISS`; and a failing `redis.set` after a successful
fetch leaves the 200 MISS response intact, the cache unchanged, and only adds
an error log entry. -/
theorem c7_cache_faults_never_surface :
    (∀ (path : List String) (cache : List (String × List Byte)) (setFails : Bool)
       (origin : Except Unit OriginResponse),
       (tileGET (some path) cache true setFails origin).httpResponse
         = (tileGET (some path) [] false setFails origin).httpResponse)
    ∧ (∀ (path : List String) (cache : List (String × List Byte)) (setFails : Bool)
       (r : OriginResponse),
       respOk r.status = true →
       declaredTypeOk r.contentTypeHeader (getContentType (joinSlash path)) = true →
       (tileGET (some path) cache true setFails (Except.ok r)).httpResponse
         = some ⟨200, Body.bytes r.body, some (getContentType (joinSlash path)),
             some "public, max-age=31536000, immutable", some "MISS"⟩)
    ∧ (∀ (path : List String) (cache : List (String × List Byte)) (getFails : Bool)
       (r : OriginResponse) (logs1 : List LogEvent),
       tileCacheStage cache getFails ("tile:" ++ joinSlash path)
           (getContentType (joinSlash path)) = (none, logs1) →
       respOk r.status = true →
       declaredTypeOk r.contentTypeHeader (getContentType (joinSlash path)) = true →
       tileGET (some path) cache getFails true (Except.ok r)
         = RunResult.resp ⟨⟨200, Body.bytes r.body, some (getContentType (joinSlash path)),
             some "public, max-age=31536000, immutable", some "MISS"⟩, cache, [],
             logs1 ++ [LogEvent.error ("Redis SET error for key "
               ++ ("tile:" ++ joinSlash path))]⟩) := by
  have hfail : ∀ (path : List String) (cache : List (String × List Byte)),
      tileCacheStage cache true ("tile:" ++ joinSlash path)
        (getContentType (joinSlash path))
        = (none, [LogEvent.error ("Redis GET error for key "
            ++ ("tile:" ++ joinSlash path))]) := by
    intro path cache
    simp [tileCacheStage]
  have hempty : ∀ (path : List String),
      tileCacheStage [] false ("tile:" ++ joinSlash path)
        (getContentType (joinSlash path)) = (none, []) := by
    intro path
    simp [tileCacheStage, cacheLookup]
  refine ⟨?_, ?_, ?_⟩
  · intro path cache setFails origin
    simp only [tileGET, hfail, hempty]
    exact tileAfterCache_httpResponse_congr path cache [] setFails origin _ _
  · intro path cache setFails r hok hd
    simp only [tileGET, hfail]
    cases setFails <;> simp [tileAfterCache, hok, hd, RunResult.httpResponse]
  · intro path cache getFails r logs1 hstage hok hd
    simp [tileGET, hstage, tileAfterCache, hok, hd]

/-- C7 (witness): the theorem applied at concrete inputs — with a failing
`get` the request for `a.png` still answers 200 MISS with the origin bytes,
and with a failing `set` the successful response survives with the cache
untouched. -/
theorem c7_witness :
    (tileGET (some ["a.png"]) [("tile:a.png", pngSig)] true false
        (Except.ok ⟨200, some "image/png", pngSig⟩)).httpResponse
      = some ⟨200, Body.bytes pngSig, some (getContentType (joinSlash ["a.png"])),
          some "public, max-age=31536000, immutable", some "MISS"⟩
    ∧ tileGET (some ["a.png"]) [] false true (Except.ok ⟨200, some "image/png", pngSig⟩)
      = RunResult.resp ⟨⟨200, Body.bytes pngSig, some (getContentType (joinSlash ["a.png"])),
          some "public, max-age=31536000, immutable", some "MISS"⟩, [], [],
          [] ++ [LogEvent.error ("Redis SET error for key "
            ++ ("tile:" ++ joinSlash ["a.png"]))]⟩ := by
  constructor
  · exact c7_cache_faults_never_surface.2.1 ["a.png"] [("tile:a.png", pngSig)] false
      ⟨200, some "image/png", pngSig⟩ (by decide) (by decide)
  · exact c7_cache_faults_never_surface.2.2 ["a.png"] [] false
      ⟨200, some "image/png", pngSig⟩ [] (by decide) (by decide) (by decide)

/-- C2 (code bug): the validator does not accept `application/x-protobuf`
buffers unconditionally.  It accepts exactly the buffers opening with the ZIP
local-file-header signature `50 4B 03 04` — a typical vector-tile buffer such
as `[0x1a, 0x05]` is rejected — and it rejects every buffer whose expected
type is `application/octet-stream` (the default binary type). -/
theorem c2_pbf_validation_eval :
    validateContentType [0x1a, 0x05] "application/x-protobuf" = false
    ∧ validateContentType zipSig "application/x-protobuf" = true
    ∧ validateContentType [0x00] "application/octet-stream" = false
    ∧ (∀ d : List Byte,
        validateContentType d "application/x-protobuf" = true ↔ d.take 4 = zipSig)
    ∧ (∀ d : List Byte, validateContentType d "application/octet-stream" = false) := by
  refine ⟨by decide, by decide, by decide, validate_pbf_iff, validate_octet_false⟩

/-- C3 (counterexample): the tile route's JSON validation is not equivalent
to a strict JSON parse.  The text `[1]` is valid JSON yet its bytes fail
`validateContentType` for `application/json`, while the malformed text
starting with an opening brace passes. -/
theorem c3_json_validator_counterexample :
    validJson "[1]" = true
    ∧ validateContentType [0x5b, 0x31, 0x5d] "application/json" = false
    ∧ validJson "\x7bbad" = false
    ∧ validateContentType [0x7b, 0x62, 0x61, 0x64] "application/json" = true := by
  decide

/-- C3 (amended): the style route's `validateJsonFormat` returns true exactly
when `JSON.parse` succeeds, but the tile route's `validateContentType` for
`application/json` instead returns true exactly when the buffer is nonempty
and its first byte, reduced mod 128 by Node `ascii` decoding, is the
opening-brace code 123 — it neither accepts all valid JSON nor rejects all
malformed JSON. -/
theorem c3_json_validation_characterised :
    (∀ s : String, validateJsonFormat s = validJson s)
    ∧ ∀ data : List Byte,
        (validateContentType data "application/json" = true
          ↔ ∃ b rest, data = b :: rest ∧ b.val % 128 = 123) :=
  ⟨fun _ => rfl, validate_json_iff⟩

/-- C8 (counterexample): the WEBP check is not an exact comparison of bytes
8–12 with ASCII `WEBP`.  Node's `ascii` decoding clears the high bit of each
byte, so a buffer whose byte 8 is `0xD7` (not the `W` code `0x57`) still
validates as `image/webp` although it lacks the claimed signature. -/
theorem c8_webp_mask_counterexample :
    validateContentType [0x52, 0x49, 0x46, 0x46, 0, 0, 0, 0, 0xd7, 0x45, 0x42, 0x50]
        "image/webp" = true
    ∧ bufSlice [0x52, 0x49, 0x46, 0x46, 0, 0, 0, 0, 0xd7, 0x45, 0x42, 0x50] 8 12
        ≠ [0x57, 0x45, 0x42, 0x50] := by
  decide

/-- C8 (amended): the image signature checks characterised.  PNG and JPEG are
exactly as claimed (first 8 bytes `89 50 4E 47 0D 0A 1A 0A`, first 2 bytes
`FF D8`); WEBP requires bytes 0–4 to equal ASCII `RIFF` exactly but compares
bytes 8–12 only after clearing the high bit of each byte (Node `ascii`
decoding), i.e. their residues mod 128 must spell `WEBP`. -/
theorem c8_image_signature_checks (data : List Byte) :
    (validateContentType data "image/png" = true ↔ data.take 8 = pngSig)
    ∧ (validateContentType data "image/jpeg" = true ↔ data.take 2 = jpegSig)
    ∧ (validateContentType data "image/webp" = true
        ↔ data.take 4 = riffSig
          ∧ (bufSlice data 8 12).map (fun b => b.val % 128) = [87, 69, 66, 80]) :=
  ⟨validate_png_iff data, validate_jpeg_iff data, validate_webp_iff data⟩
